import Mathlib

/-!
Verification development for srcfacts (src/srcfacts.cpp).

The program is a single-pass streaming XML parser that counts structural
srcML metrics.  We embed the byte window, the refill discipline, the
preamble (XML declaration and DOCTYPE), the main element loop, and the
final report derivation as executable Lean definitions, translated
branch-for-branch from the C++ source (line numbers cited throughout).

Modelling conventions:
- Bytes are Lean `Char`s; the byte window (`std::string_view content`) is a
  `List Char`; `remove_prefix` is `List.drop`.
- The byte source is a list of chunks; each `refillContent` call appends one
  chunk (capped at `BUFFER_SIZE - BLOCK_SIZE` bytes), and an exhausted
  chunk list is EOF (`bytesRead = 0`).  Read errors (negative returns)
  are not modelled, so the File-input-error exits are unreachable here.
- `std::string_view::find*` returning `npos` is `Option.none`.
- Out-of-window reads: the C++ indexes `content[i]` with `i ≥ size()` in a
  few places; the bytes there live in the zero-initialised static buffer
  region, so a fixed-width lookahead that runs past the window reads a NUL
  byte, which matches none of the compared literals.  We model such a
  failed comparison as a non-match.  Where the C++ performs an
  unconditionally out-of-bounds access (for example indexing with `npos`
  after an unchecked failed find), the model returns a distinguished
  `stuck` result instead of guessing a value.
- The build is a CMake Release build (CMakeLists sets Release when
  unspecified), so `assert` is disabled: an `assert(...)` followed by a
  `remove_prefix(k)` is modelled as an unconditional drop of `k` bytes.
-/

/-- Models `BLOCK_SIZE` (srcfacts.cpp line 35). -/
def BLOCK_SIZE : Nat := 4096

/-- Models `BUFFER_SIZE` (srcfacts.cpp line 36). -/
def BUFFER_SIZE : Nat := 16 * 16 * BLOCK_SIZE

/-- Models the `WHITESPACE` string-view constant (line 40). -/
def WHITESPACE : List Char := [' ', '\n', '\t', '\r']

/-- Models the `NAMEEND` string-view constant (line 41): the delimiter set
for qualified names. -/
def NAMEEND : List Char := ['>', ' ', '/', '\"', ':', '=', '\n', '\t', '\r']

/-- Models the 128-entry `xmlNameMask` bitset (line 38).  The C++ bitset is
built from a 128-character binary string whose leftmost character is bit
127, so bit `c` of the mask is character `127 - c` of the string. -/
def xmlNameMaskBits : List Char :=
  ("00000111111111111111111111111110100001111111111111111111111111100000001111111111011000000000000000000000000000000000000000000000").toList

/-- Lookup in the name-continuation mask.  Indexing the C++ bitset with a
byte outside 0..127 is undefined behaviour (plain `char` is signed); the
claims only exercise ASCII input, and we return `false` there. -/
def xmlNameMask (c : Char) : Bool :=
  if c.toNat < 128 then xmlNameMaskBits.getD (127 - c.toNat) '0' == '1' else false

/-- Tests whether `p` is an initial segment of `s` (models
`string_view::compare(0, p.size(), p) == 0` and fixed-width lookahead). -/
def startsWithL : List Char → List Char → Bool
  | _, [] => true
  | [], _ :: _ => false
  | c :: s, p :: ps => c == p && startsWithL s ps

/-- Models `std::string_view::find_first_of(set)`: index of the first
character of `s` that is in `set`, `none` for `npos`. -/
def findFirstOf (s : List Char) (set : List Char) : Option Nat :=
  match s with
  | [] => none
  | c :: rest =>
      if set.contains c then some 0
      else (findFirstOf rest set).map (fun i => i + 1)

/-- Models `std::string_view::find_first_not_of(set)`. -/
def findFirstNotOf (s : List Char) (set : List Char) : Option Nat :=
  match s with
  | [] => none
  | c :: rest =>
      if set.contains c then (findFirstNotOf rest set).map (fun i => i + 1)
      else some 0

/-- Models `std::string_view::find(pattern)`: index of the first occurrence
of the substring `pat`, `none` for `npos`. -/
def findSub (s : List Char) (pat : List Char) : Option Nat :=
  match s with
  | [] => if pat.isEmpty then some 0 else none
  | _ :: rest =>
      if startsWithL s pat then some 0
      else (findSub rest pat).map (fun i => i + 1)

/-- Models `std::string_view::find(c)` for a single character. -/
def findChar (s : List Char) (c : Char) : Option Nat := findFirstOf s [c]

/-- Counts newline bytes (models `std::count(begin, end, newline)` at lines
332 and 386). -/
def countNewlines (s : List Char) : Nat := s.countP (fun c => c == '\n')

/-- Models the skip-whitespace idiom
`content.remove_prefix(content.find_first_not_of(WHITESPACE))`
(for example lines 137, 436, 483).  When the find returns `npos`
(all-whitespace or empty window) the C++ `remove_prefix(npos)` is
undefined behaviour, modelled as `none`. -/
def skipWs (s : List Char) : Option (List Char) :=
  (findFirstNotOf s WHITESPACE).map (fun i => s.drop i)

/-- Result of one `refillContent` call (lines 51-95). -/
structure RefillOut where
  content : List Char
  chunks : List (List Char)
  bytesRead : Int
deriving DecidableEq, Repr

/-- Models `refillContent` (lines 51-95): the unconsumed window `content`
is preserved at the start (the `std::copy` at line 78), then one read of at
most `BUFFER_SIZE - BLOCK_SIZE` bytes is appended (line 81).  The byte
source is modelled as a list of chunks, one chunk served per read; an
empty chunk list is EOF (`bytesRead = 0`, line 87).  Read errors are not
modelled. -/
def refillContent (content : List Char) (chunks : List (List Char)) : RefillOut :=
  match chunks with
  | [] => { content := content, chunks := [], bytesRead := 0 }
  | c :: rest =>
      let taken := c.take (BUFFER_SIZE - BLOCK_SIZE)
      let rem := c.drop (BUFFER_SIZE - BLOCK_SIZE)
      { content := content ++ taken
        chunks := if rem.isEmpty then rest else rem :: rest
        bytesRead := (taken.length : Int) }

/-- The metric counters of `main` (lines 115-123), mutated only by parser
events. -/
structure Counters where
  textSize : Int
  loc : Int
  exprCount : Int
  functionCount : Int
  classCount : Int
  unitCount : Int
  declCount : Int
  commentCount : Int
  url : List Char
deriving DecidableEq, Repr

/-- All-zero counters, the state at the start of `main`. -/
def Counters.init : Counters :=
  { textSize := 0, loc := 0, exprCount := 0, functionCount := 0
    classCount := 0, unitCount := 0, declCount := 0, commentCount := 0
    url := [] }

/-- The mutable parsing state of `main`: the window view, the remaining
byte source, the EOF flag (line 287), the running byte total (line 124),
the counters, and the nesting depth (line 286). -/
structure PState where
  content : List Char
  chunks : List (List Char)
  doneReading : Bool
  totalBytes : Int
  counters : Counters
  depth : Int
deriving DecidableEq, Repr

/-- The distinguishable fatal diagnostics of srcfacts, one constructor per
`std::cerr` message followed by `return 1`. -/
inductive ParseErr where
  | fileInputError              -- lines 129, 296, 344, 370, 601 (unreachable in this model)
  | emptyFile                   -- line 133
  | invalidStartDelimiterVersion -- line 152
  | invalidEndDelimiterVersion  -- line 158
  | missingVersion              -- line 162
  | incompleteAttrDecl          -- lines 175, 209
  | invalidEndDelimiterAttrDecl -- lines 186, 219
  | incompleteAttr2Decl         -- lines 192, 225
  | invalidAttrDecl             -- lines 200, 231
  | incompleteXMLDeclaration    -- line 395
  | unterminatedPI              -- line 400
  | unterminatedComment         -- lines 353, 611
  | unterminatedCDATA           -- line 379
  | invalidEndTagName           -- line 414
  | unterminatedEndTag          -- line 419 (dead code, see parseEndTag)
  | endTagInvalidName           -- line 429
  | invalidStartTagName         -- line 447
  | unterminatedStartTag        -- line 452 (dead code, see parseStartTag)
  | startTagInvalidName         -- line 462
  | incompleteNamespace         -- lines 491, 505, 510, 516
  | emptyAttributeName          -- line 529 (dead code, see attrLoop)
  | incompleteAttribute         -- line 543
  | attrMissingEq               -- line 547
  | attrMissingDelimiter        -- lines 554, 560
  | invalidXMLDocument          -- line 588 (unreachable, see dispatch)
  | extraContent                -- line 623
deriving DecidableEq, Repr

/-- Computation result: normal value, fatal diagnostic with exit 1,
undefined behaviour in the C++ (out-of-bounds access), or insufficient
fuel for the model's bounded recursion. -/
inductive Res (α : Type) where
  | ok : α → Res α
  | fatal : ParseErr → Res α
  | stuck : Res α
  | outOfFuel : Res α
deriving DecidableEq, Repr

/-- Sequencing for `Res`. -/
def Res.bind {α β : Type} : Res α → (α → Res β) → Res β
  | .ok a, f => f a
  | .fatal e, _ => .fatal e
  | .stuck, _ => .stuck
  | .outOfFuel, _ => .outOfFuel

instance : Monad Res where
  pure := Res.ok
  bind := Res.bind

/-- Lifts the skip-whitespace idiom into `Res`: an all-whitespace or empty
window makes `remove_prefix(npos)` undefined behaviour in the C++. -/
def wsRes (s : List Char) : Res (List Char) :=
  match skipWs s with
  | some r => .ok r
  | none => .stuck

/-- Models the XML-declaration parse (lines 138-242), entered after the
window has been seen to start with the six bytes of the declaration opener.
Returns the window after the closing two bytes and trailing whitespace.
The value reads (`version`, `encoding`, `standalone`) are dropped; only
the flag recording that `standalone` was already set is kept, because the
second optional attribute is accepted only when it is `standalone` and
`standalone` is not yet set (line 228). -/
def parseXMLDecl (content0 : List Char) : Res (List Char) := do
  -- line 141: remove the five-byte opener (the following space is skipped
  -- by the whitespace skip of line 142)
  let content := content0.drop 5
  let content ← wsRes content
  -- lines 144-146: required first attribute name, delimited by language
  -- of the set containing the equals sign and the space
  match findFirstOf content ['=', ' '] with
  | none =>
      -- line 146 removes with npos: out-of-bounds
      .stuck
  | some nameEndPosition => do
    let attr := content.take nameEndPosition
    let content := content.drop nameEndPosition
    let content ← wsRes content
    -- line 148: the equals sign is removed without being checked
    let content := content.drop 1
    let content ← wsRes content
    match content with
    | [] => .stuck
    | delimiter :: _ => do
      if delimiter != '\"' && delimiter != '\'' then
        -- lines 151-154
        .fatal .invalidStartDelimiterVersion
      else do
        let content := content.drop 1
        match findChar content delimiter with
        | none => .fatal .invalidEndDelimiterVersion  -- lines 157-160
        | some valueEndPosition => do
          if attr != ("version").toList then
            .fatal .missingVersion  -- lines 161-164
          else do
            let content := content.drop valueEndPosition
            let content := content.drop 1
            let content ← wsRes content
            -- lines 170-205: first optional attribute (encoding or standalone)
            let step1 : Res (List Char × Bool) ←
              match content with
              | [] => .stuck
              | c :: _ =>
                if c != '?' then
                  match findFirstOf content ['=', ' '] with
                  | none => .fatal .incompleteAttrDecl  -- lines 174-177
                  | some nameEndPosition2 => do
                    let attr2 := content.take nameEndPosition2
                    let content := content.drop nameEndPosition2
                    let content ← wsRes content
                    -- line 182: equals sign removed (assert disabled)
                    let content := content.drop 1
                    let content ← wsRes content
                    match content with
                    | [] => .stuck
                    | delimiter2 :: _ =>
                      if delimiter2 != '\"' && delimiter2 != '\'' then
                        .fatal .invalidEndDelimiterAttrDecl  -- lines 185-188
                      else do
                        let content := content.drop 1
                        match findChar content delimiter2 with
                        | none => .fatal .incompleteAttr2Decl  -- lines 191-194
                        | some valueEndPosition2 =>
                          if attr2 == ("encoding").toList then do
                            let content := content.drop (valueEndPosition2 + 1)
                            let content ← wsRes content
                            Res.ok (content, false)
                          else if attr2 == ("standalone").toList then do
                            let content := content.drop (valueEndPosition2 + 1)
                            let content ← wsRes content
                            Res.ok (content, true)
                          else
                            .fatal .invalidAttrDecl  -- lines 199-202
                else
                  Res.ok (content, false)
            let (content, standaloneSet) := step1
            -- lines 206-237: second optional attribute (standalone only)
            let content ←
              match content with
              | [] => Res.stuck
              | c :: _ =>
                if c != '?' then
                  match findFirstOf content ['=', ' '] with
                  | none => Res.fatal .incompleteAttrDecl  -- lines 208-211
                  | some nameEndPosition2 => do
                    let attr2 := content.take nameEndPosition2
                    let content := content.drop nameEndPosition2
                    let content ← wsRes content
                    -- line 215: equals sign removed without being checked
                    let content := content.drop 1
                    let content ← wsRes content
                    match content with
                    | [] => Res.stuck
                    | delimiter2 :: _ =>
                      if delimiter2 != '\"' && delimiter2 != '\'' then
                        Res.fatal .invalidEndDelimiterAttrDecl  -- lines 218-221
                      else do
                        let content := content.drop 1
                        match findChar content delimiter2 with
                        | none => Res.fatal .incompleteAttr2Decl  -- lines 223-227
                        | some valueEndPosition2 =>
                          if !standaloneSet && attr2 == ("standalone").toList then do
                            let content := content.drop (valueEndPosition2 + 1)
                            let content ← wsRes content
                            Res.ok content
                          else
                            Res.fatal .invalidAttrDecl  -- lines 230-233
                else
                  Res.ok content
            -- line 240: the closing two bytes are removed (assert disabled)
            let content := content.drop 2
            wsRes content

/-- Models the DOCTYPE scanning loop (lines 247-278): bracket depth with
single/double-quote state and nested comment tracking.  Returns the
absolute position at which the depth returned to 0 (the closing angle
bracket).  When `find_first_of` fails the C++ leaves `p = npos` and then
removes it from the window (line 281): out-of-bounds, hence `stuck`. -/
def doctypeScan (content : List Char) : Nat → Int → Bool → Bool → Bool → Nat → Res Nat
  | 0, _, _, _, _, _ => .outOfFuel
  | fuel + 1, depthAngleBrackets, inSingleQuote, inDoubleQuote, inComment, p =>
    match findFirstOf (content.drop p) ['<', '>', '\'', '\"', '-'] with
    | none => .stuck
    | some q =>
      let a := p + q
      -- lines 253-256: a comment opener is recognised regardless of state
      if startsWithL (content.drop a) ("<!--").toList then
        doctypeScan content fuel depthAngleBrackets inSingleQuote inDoubleQuote true (a + 4)
      -- lines 257-261
      else if startsWithL (content.drop a) ("-->").toList then
        doctypeScan content fuel depthAngleBrackets inSingleQuote inDoubleQuote false (a + 3)
      -- lines 262-265
      else if inComment then
        doctypeScan content fuel depthAngleBrackets inSingleQuote inDoubleQuote inComment (a + 1)
      else
        let c := (content.drop a).headD ' '
        let depthAngleBrackets :=
          if c == '<' && !inSingleQuote && !inDoubleQuote then depthAngleBrackets + 1
          else if c == '>' && !inSingleQuote && !inDoubleQuote then depthAngleBrackets - 1
          else depthAngleBrackets
        let inSingleQuote :=
          if !(c == '<' && !inSingleQuote && !inDoubleQuote)
             && !(c == '>' && !inSingleQuote && !inDoubleQuote)
             && c == '\'' then !inSingleQuote else inSingleQuote
        let inDoubleQuote :=
          if !(c == '<' && !inSingleQuote && !inDoubleQuote)
             && !(c == '>' && !inSingleQuote && !inDoubleQuote)
             && c == '\'' then inDoubleQuote
          else if c == '\"' then !inDoubleQuote else inDoubleQuote
        -- lines 275-276
        if depthAngleBrackets == 0 then .ok a
        else doctypeScan content fuel depthAngleBrackets inSingleQuote inDoubleQuote inComment (a + 1)

/-- Models the preamble of `main` (lines 127-285): initial refill, empty
check, leading whitespace, optional XML declaration, optional DOCTYPE.
Produces the state entering the main element loop (depth 0, lines 286-287). -/
def preamble (chunks : List (List Char)) : Res PState :=
  let r := refillContent [] chunks
  if r.bytesRead < 0 then .fatal .fileInputError        -- lines 128-131 (unreachable here)
  else if r.bytesRead == 0 then .fatal .emptyFile       -- lines 132-135
  else do
    let totalBytes := r.bytesRead                       -- line 136
    let content ← wsRes r.content                       -- line 137
    let content ←
      if startsWithL content ("<?xml ").toList          -- line 138 byte-wise lookahead
      then parseXMLDecl content else Res.ok content
    let content ←
      if startsWithL content ("<!DOCTYPE ").toList then do  -- line 243
        let content := content.drop 9                   -- line 246
        match doctypeScan content (content.length + 1) 1 false false false 0 with
        | .ok p => do
            let content := content.drop p               -- line 281
            let content := content.drop 1               -- lines 282-283 (assert disabled)
            wsRes content                               -- line 284
        | .fatal e => Res.fatal e
        | .stuck => Res.stuck
        | .outOfFuel => Res.outOfFuel
      else Res.ok content
    Res.ok { content := content, chunks := r.chunks, doneReading := false,
             totalBytes := totalBytes, counters := Counters.init, depth := 0 }

/-- Outcome of one iteration of the main element loop: continue, or leave
the loop (the `break`s at lines 291, 441, 585). -/
inductive StepOut where
  | next : PState → StepOut
  | exitLoop : PState → StepOut
deriving DecidableEq, Repr

/-- Models the attribute/namespace scanning loop of a start tag
(lines 484-576).  Only the window and the captured url change; the loop
never refills and never touches the metric counters.  A byte beyond the
window read by the loop condition is the NUL of the zero-initialised
buffer, whose mask bit is clear. -/
def attrLoop : Nat → List Char → List Char → Res (List Char × List Char)
  | 0, _, _ => .outOfFuel
  | fuel + 1, content, url =>
    if !xmlNameMask (content.headD '\x00') then .ok (content, url)
    else if startsWithL content ("xmlns").toList
            && (content.getD 5 '\x00' == ':' || content.getD 5 '\x00' == '=') then do
      -- lines 485-524: namespace declaration
      let content := content.drop 5                     -- line 488
      match findChar content '=' with
      | none => Res.fatal .incompleteNamespace          -- lines 490-493
      | some nameEndPosition0 => do
        let (content, nameEndPosition) :=
          if content.headD '\x00' == ':'
          then (content.drop 1, nameEndPosition0 - 1)   -- lines 495-499 (prefix unused)
          else (content, nameEndPosition0)
        let content := content.drop nameEndPosition     -- line 501
        let content := content.drop 1                   -- line 502
        let content ← wsRes content                     -- line 503
        if content.isEmpty then
          Res.fatal .incompleteNamespace                -- lines 504-507 (dead: wsRes gave a non-empty window)
        else do
          let delimiter := content.headD '\x00'
          if delimiter != '\"' && delimiter != '\'' then
            Res.fatal .incompleteNamespace              -- lines 509-512
          else do
            let content := content.drop 1               -- line 513
            match findChar content delimiter with
            | none => Res.fatal .incompleteNamespace    -- lines 515-518
            | some valueEndPosition => do
              let content := content.drop valueEndPosition  -- line 521 (uri unused)
              let content := content.drop 1             -- lines 522-523 (assert disabled)
              let content ← wsRes content               -- line 524
              attrLoop fuel content url
    else do
      -- lines 526-575: ordinary attribute
      match findFirstOf content NAMEEND with
      | none =>
          -- line 528 compares the find result with the window size, which a
          -- failed find (npos) never equals, so the Empty-attribute-name
          -- exit is dead; line 533 then indexes with npos: out of bounds
          Res.stuck
      | some nameEndPosition0 => do
        let colonResult : Res (Nat × Nat) :=
          if content.getD nameEndPosition0 '\x00' == ':' then
            match findFirstOf (content.drop (nameEndPosition0 + 1)) NAMEEND with
            | none => Res.stuck                         -- line 540 would remove npos
            | some j => Res.ok (nameEndPosition0, nameEndPosition0 + 1 + j)
          else Res.ok (0, nameEndPosition0)
        let (colonPosition, nameEndPosition) ← colonResult
        let qName := content.take nameEndPosition       -- line 537
        let localName := qName.drop (if colonPosition != 0 then colonPosition + 1 else 0)  -- line 539
        let content := content.drop nameEndPosition     -- line 540
        let content ← wsRes content                     -- line 541
        if content.isEmpty then
          Res.fatal .incompleteAttribute                -- lines 542-545 (dead: wsRes gave a non-empty window)
        else if content.headD '\x00' != '=' then
          Res.fatal .attrMissingEq                      -- lines 546-549
        else do
          let content := content.drop 1                 -- line 550
          let content ← wsRes content                   -- line 551
          let delimiter := content.headD '\x00'
          if delimiter != '\"' && delimiter != '\'' then
            Res.fatal .attrMissingDelimiter             -- lines 553-556
          else do
            let content := content.drop 1               -- line 557
            match findChar content delimiter with
            | none => Res.fatal .attrMissingDelimiter   -- lines 559-562
            | some valueEndPosition => do
              let value := content.take valueEndPosition
              let url := if localName == ("url").toList then value else url  -- lines 564-565
              -- lines 567-571: the escape/char numeric decode is computed
              -- into a discarded local and has no effect on the state
              let content := content.drop valueEndPosition  -- line 572
              let content := content.drop 1             -- line 573
              let content ← wsRes content               -- line 574
              attrLoop fuel content url

/-- Models the per-element counter increments of a start tag
(lines 469-481). -/
def bumpElement (localName : List Char) (c : Counters) : Counters :=
  if localName == ("expr").toList then { c with exprCount := c.exprCount + 1 }
  else if localName == ("decl").toList then { c with declCount := c.declCount + 1 }
  else if localName == ("comment").toList then { c with commentCount := c.commentCount + 1 }
  else if localName == ("function").toList then { c with functionCount := c.functionCount + 1 }
  else if localName == ("unit").toList then { c with unitCount := c.unitCount + 1 }
  else if localName == ("class").toList then { c with classCount := c.classCount + 1 }
  else c

/-- Models the close of a start tag (lines 577-586): a plain close
increments the depth; a self-closing close leaves it unchanged and leaves
the loop when the depth is 0; any other byte (including a byte beyond the
window, read as NUL) falls through to the outer loop with nothing
consumed. -/
def closeStartTag (s : PState) (content : List Char) (c : Counters) : Res StepOut :=
  if content.headD '\x00' == '>' then
    .ok (.next { s with content := content.drop 1, counters := c, depth := s.depth + 1 })
  else if content.headD '\x00' == '/' && content.getD 1 '\x00' == '>' then
    let s' := { s with content := content.drop 2, counters := c }
    if s.depth == 0 then .ok (.exitLoop s') else .ok (.next s')
  else
    .ok (.next { s with content := content, counters := c })

/-- Models one start-tag parse (lines 442-586), dispatched on a left angle
bracket not followed by a recognised two-byte opener. -/
def parseStartTag (s : PState) : Res StepOut := do
  let content := s.content.drop 1                       -- line 445
  if content.headD '\x00' == ':' then
    Res.fatal .invalidStartTagName                      -- lines 446-449
  else
    match findFirstOf content NAMEEND with
    | none =>
        -- line 451 compares the find result with the window size, which a
        -- failed find never equals (dead Unterminated-start-tag exit);
        -- line 456 then indexes with npos: out of bounds
        Res.stuck
    | some nameEndPosition0 => do
      let colonResult : Res (Nat × Nat) :=
        if content.getD nameEndPosition0 '\x00' == ':' then
          match findFirstOf (content.drop (nameEndPosition0 + 1)) NAMEEND with
          | none => Res.stuck                           -- line 482 would remove npos
          | some j => Res.ok (nameEndPosition0, nameEndPosition0 + 1 + j)
        else Res.ok (0, nameEndPosition0)
      let (colonPosition, nameEndPosition) ← colonResult
      let qName := content.take nameEndPosition         -- line 460
      if qName.isEmpty then
        Res.fatal .startTagInvalidName                  -- lines 461-464
      else do
        let localName := qName.drop (if colonPosition != 0 then colonPosition + 1 else 0)  -- line 466
        -- lines 469-481: per-element counter increments
        let c := bumpElement localName s.counters
        let content := content.drop nameEndPosition     -- line 482
        let content ← wsRes content                     -- line 483
        let (content, url) ← attrLoop (content.length + 1) content c.url
        closeStartTag s content { c with url := url }

/-- Models one end-tag parse (lines 409-441). -/
def parseEndTag (s : PState) : Res StepOut := do
  let content := s.content.drop 2                       -- line 412
  if content.headD '\x00' == ':' then
    Res.fatal .invalidEndTagName                        -- lines 413-416
  else
    match findFirstOf content NAMEEND with
    | none =>
        -- line 418 compares the find result with the window size, which a
        -- failed find never equals (dead Unterminated-end-tag exit);
        -- line 423 then indexes with npos: out of bounds
        Res.stuck
    | some nameEndPosition0 => do
      let colonResult : Res (Nat × Nat) :=
        if content.getD nameEndPosition0 '\x00' == ':' then
          match findFirstOf (content.drop (nameEndPosition0 + 1)) NAMEEND with
          | none => Res.stuck                           -- line 435 would remove npos
          | some j => Res.ok (nameEndPosition0, nameEndPosition0 + 1 + j)
        else Res.ok (0, nameEndPosition0)
      let (_, nameEndPosition) ← colonResult
      let qName := content.take nameEndPosition         -- line 427
      if qName.isEmpty then
        Res.fatal .endTagInvalidName                    -- lines 428-431
      else do
        let content := content.drop nameEndPosition     -- line 435
        let content ← wsRes content                     -- line 436
        let content := content.drop 1                   -- lines 437-438 (assert disabled)
        let depth := s.depth - 1                        -- line 439
        let s' := { s with content := content, depth := depth }
        if depth == 0 then Res.ok (.exitLoop s')        -- lines 440-441
        else Res.ok (.next s')

/-- Models the text-run extraction of lines 329-330: the characters up to
the next left angle or ampersand, the whole window when neither occurs
(`substr(0, npos)` clamps). -/
def textRun (content : List Char) : List Char :=
  match findFirstOf content ['<', '&'] with
  | none => content
  | some i => content.take i

/-- Models the dispatch on the lookahead bytes inside one iteration of the
main element loop (lines 304-590), after the refill phase.  An empty
window here means the C++ reads a byte beyond the view with unconstrained
content, hence `stuck`. -/
def dispatch (s : PState) : Res StepOut :=
  match s.content with
  | [] => .stuck
  | c :: rest =>
    if c == '&' then
      -- lines 304-325: character entity references
      let escapedSize : Nat :=
        if startsWithL rest ("lt;").toList then 4
        else if startsWithL rest ("gt;").toList then 4
        else if startsWithL rest ("amp;").toList then 5
        else 1                                          -- lines 317-320: literal single byte
      .ok (.next { s with
        content := s.content.drop escapedSize,
        counters := { s.counters with textSize := s.counters.textSize + 1 } })
    else if c != '<' then
      -- lines 326-334: text run up to the next left angle or ampersand
      let characters := textRun s.content
      .ok (.next { s with
        content := s.content.drop characters.length,
        counters := { s.counters with
          loc := s.counters.loc + (countNewlines characters : Int),
          textSize := s.counters.textSize + (characters.length : Int) } })
    else
      match rest with
      | '!' :: '-' :: '-' :: _ =>
        -- lines 335-360: comment, with the single refill retry
        let content := s.content.drop 4                 -- line 338
        match findSub content ("-->").toList with
        | some tagEndPosition =>
            .ok (.next { s with content := (content.drop tagEndPosition).drop 3 })
        | none =>
            let r := refillContent content s.chunks     -- line 342
            let doneReading := if r.bytesRead == 0 then true else s.doneReading
            let totalBytes := s.totalBytes + r.bytesRead
            match findSub r.content ("-->").toList with
            | none => .fatal .unterminatedComment       -- lines 352-355
            | some tagEndPosition =>
                .ok (.next { s with
                  content := (r.content.drop tagEndPosition).drop 3,
                  chunks := r.chunks,
                  doneReading := doneReading,
                  totalBytes := totalBytes })
      | '!' :: '[' :: 'C' :: 'D' :: 'A' :: 'T' :: 'A' :: '[' :: _ =>
        -- lines 361-388: CDATA, counted like a text run, same retry
        let content := s.content.drop 9                 -- line 364
        match findSub content ("]]>").toList with
        | some tagEndPosition =>
            let characters := content.take tagEndPosition
            .ok (.next { s with
              content := (content.drop tagEndPosition).drop 3,
              counters := { s.counters with
                textSize := s.counters.textSize + (characters.length : Int),
                loc := s.counters.loc + (countNewlines characters : Int) } })
        | none =>
            let r := refillContent content s.chunks     -- line 368
            let doneReading := if r.bytesRead == 0 then true else s.doneReading
            let totalBytes := s.totalBytes + r.bytesRead
            match findSub r.content ("]]>").toList with
            | none => .fatal .unterminatedCDATA         -- lines 378-381
            | some tagEndPosition =>
                let characters := r.content.take tagEndPosition
                .ok (.next { s with
                  content := (r.content.drop tagEndPosition).drop 3,
                  chunks := r.chunks,
                  doneReading := doneReading,
                  totalBytes := totalBytes,
                  counters := { s.counters with
                    textSize := s.counters.textSize + (characters.length : Int),
                    loc := s.counters.loc + (countNewlines characters : Int) } })
      | '?' :: _ =>
        -- lines 389-408: processing instruction; the terminator must be in
        -- the current window, no refill is attempted
        let content := s.content.drop 2                 -- line 392
        match findSub content ("?>").toList with
        | none => .fatal .incompleteXMLDeclaration      -- lines 394-397
        | some tagEndPosition =>
            match findFirstOf content NAMEEND with
            | none => .fatal .unterminatedPI            -- lines 399-402
            | some _ =>
                .ok (.next { s with content := (content.drop tagEndPosition).drop 2 })
      | '/' :: _ => parseEndTag s                       -- lines 409-441
      | _ => parseStartTag s
        -- lines 442-586; the invalid-XML-document exit of lines 587-589 is
        -- unreachable because the guard of line 442 repeats the left angle
        -- already established by the branch of line 326

/-- Models one full iteration of the main element loop (lines 288-590):
the EOF/refill phase of lines 289-303 followed by the dispatch. -/
def step (s : PState) : Res StepOut :=
  if s.doneReading then
    if s.content.isEmpty then .ok (.exitLoop s)         -- lines 290-291
    else dispatch s
  else if s.content.length < BLOCK_SIZE then            -- line 292
    let r := refillContent s.content s.chunks           -- line 294
    dispatch { s with
      content := r.content,
      chunks := r.chunks,
      doneReading := r.bytesRead == 0,                  -- lines 299-301
      totalBytes := s.totalBytes + r.bytesRead }
  else dispatch s
/-- Runs the main element loop to its exit (fuel-bounded). -/
def runLoop : Nat → PState → Res PState
  | 0, _ => .outOfFuel
  | fuel + 1, s =>
    match step s with
    | .ok (.next s') => runLoop fuel s'
    | .ok (.exitLoop s') => .ok s'
    | .fatal e => .fatal e
    | .stuck => .stuck
    | .outOfFuel => .outOfFuel

/-- Runs at most `n` iterations of the main element loop, exposing the
intermediate state (used to observe the loop mid-run). -/
def iterate : Nat → PState → Res StepOut
  | 0, s => .ok (.next s)
  | fuel + 1, s =>
    match step s with
    | .ok (.next s') => iterate fuel s'
    | r => r

/-- Models the skip-whitespace idiom with the explicit npos guard of
lines 592 and 620. -/
def skipWsGuarded (s : List Char) : List Char :=
  match findFirstNotOf s WHITESPACE with
  | none => s.drop s.length
  | some i => s.drop i

/-- Models the trailing-comment loop (lines 593-621). -/
def trailingLoop : Nat → PState → Res PState
  | 0, _ => .outOfFuel
  | fuel + 1, s =>
    if startsWithL s.content ("<!--").toList then       -- line 593 byte-wise lookahead
      let content := s.content.drop 4                   -- line 596
      match findSub content ("-->").toList with
      | some tagEndPosition =>
          trailingLoop fuel { s with
            content := skipWsGuarded ((content.drop tagEndPosition).drop 3) }
      | none =>
          let r := refillContent content s.chunks       -- line 600
          let doneReading := if r.bytesRead == 0 then true else s.doneReading
          let totalBytes := s.totalBytes + r.bytesRead
          match findSub r.content ("-->").toList with
          | none => .fatal .unterminatedComment         -- lines 610-613
          | some tagEndPosition =>
              trailingLoop fuel { s with
                content := skipWsGuarded ((r.content.drop tagEndPosition).drop 3),
                chunks := r.chunks, doneReading := doneReading,
                totalBytes := totalBytes }
    else .ok s

/-- Models the trailing material check (lines 592-625): skip whitespace,
zero or more comments, then any leftover byte is fatal. -/
def trailingPhase (fuel : Nat) (s : PState) : Res (Counters × Int) := do
  let s' ← trailingLoop fuel { s with content := skipWsGuarded s.content }
  if s'.content.isEmpty then Res.ok (s'.counters, s'.totalBytes)
  else Res.fatal .extraContent                          -- lines 622-625

/-- Models the whole parsing run of `main` (lines 112-625): preamble, main
element loop, trailing material.  Returns the final counters and the
total bytes read. -/
def srcfactsRun (chunks : List (List Char)) (fuel : Nat) : Res (Counters × Int) := do
  let s ← preamble chunks
  let s ← runLoop fuel s
  trailingPhase fuel s

/-- Models the derived files statistic `std::max(unitCount - 1, 1)`
(line 630). -/
def filesStat (unitCount : Int) : Int := max (unitCount - 1) 1

/-- The data of the success report (lines 633-643), free of formatting. -/
structure Report where
  url : List Char
  textSize : Int
  loc : Int
  files : Int
  classCount : Int
  functionCount : Int
  declCount : Int
  exprCount : Int
  commentCount : Int
deriving DecidableEq, Repr

/-- Builds the report printed on success (lines 630-643). -/
def mkReport (c : Counters) : Report :=
  { url := c.url, textSize := c.textSize, loc := c.loc,
    files := filesStat c.unitCount, classCount := c.classCount,
    functionCount := c.functionCount, declCount := c.declCount,
    exprCount := c.exprCount, commentCount := c.commentCount }

/-- The process exit status of a run: 0 on success (line 651), 1 on every
fatal diagnostic (each `return 1`); undefined for behaviour the model
does not assign. -/
def exitStatus : Res (Counters × Int) → Option Int
  | .ok _ => some 0
  | .fatal _ => some 1
  | _ => none

/-- The report is printed only on the success path (lines 626-644): every
fatal exit happens before the printing code is reached. -/
def reportOf : Res (Counters × Int) → Option Report
  | .ok (c, _) => some (mkReport c)
  | _ => none

/-- Splits a byte content into successive chunks of `n` bytes (the
artificial refill granularity of the boundary-independence property). -/
def chunkAux : Nat → Nat → List Char → List (List Char)
  | 0, _, _ => []
  | _, _, [] => []
  | fuel + 1, n, s => s.take n :: chunkAux fuel n (s.drop n)

/-- All chunks of size `n` (the last one possibly shorter) of a content. -/
def chunkBytes (n : Nat) (s : List Char) : List (List Char) :=
  chunkAux s.length n s

/-- The state carried by either loop outcome. -/
def stateOf : StepOut → PState
  | .next s => s
  | .exitLoop s => s

set_option maxRecDepth 400000

/-- Concrete documents used by the claims. -/
def selfCloseDoc : List Char := ("<unit/>").toList

def entityDoc : List Char := ("<unit>&lt;&gt;&amp;&zzz;</unit>").toList

def textNlDoc : List Char := ("<unit>a\nb\nc</unit>").toList

def attrNlDoc : List Char := ("<unit url=\"a\nb\">x</unit>").toList

def commentStraddleDoc : List Char := ("<a><!-- 0123456789012345678901234 --></a>").toList

def textStraddleDoc : List Char := ("<a>hello\nworld</a>").toList

def endTagOnlyDoc : List Char := ("</unit>").toList

def mismatchDoc : List Char := ("<unit></foo>").toList

def matchedDoc : List Char := ("<unit></unit>").toList

def untermCommentDoc : List Char := ("<unit><!-- abc</unit>").toList

def noDelimDoc : List Char := ("<unit url=oops></unit>").toList

def emptyEndTagDoc : List Char := ("<unit></>").toList

/-- C2 counterexample: the text content of `entityDoc` contributes 8 to the
text size, not 4 as claimed; its LOC contribution is 0. -/
theorem c2_entity_counterexample :
    (reportOf (srcfactsRun [entityDoc] 200)).map Report.textSize = some 8
    ∧ (reportOf (srcfactsRun [entityDoc] 200)).map Report.loc = some 0
    ∧ (8 : Int) ≠ 4 := by decide

/-- C2 (amended): parsing the document wrapping the text
`&lt;&gt;&amp;&zzz;` yields text size 8 and LOC 0: the three recognised
references and the literal ampersand of the unrecognised one contribute one
character each, and the four remaining bytes `zzz;` form an ordinary text
run contributing four. -/
theorem c2_entity_amended :
    srcfactsRun [entityDoc] 200 =
      .ok ({ Counters.init with unitCount := 1, textSize := 8 }, 31)
    ∧ (8 : Int) = 3 + 1 + 4 := by decide

/-- C6: on every successful run the reported files statistic is
`max (unitCount - 1) 1`, and the values at unit counts 0, 1, 5 are
1, 1, 4. -/
theorem c6_files_derivation :
    (∀ chunks fuel c tb, srcfactsRun chunks fuel = .ok (c, tb) →
      (reportOf (srcfactsRun chunks fuel)).map Report.files = some (max (c.unitCount - 1) 1))
    ∧ filesStat 0 = 1 ∧ filesStat 1 = 1 ∧ filesStat 5 = 4 := by
  refine ⟨?_, by decide, by decide, by decide⟩
  intro chunks fuel c tb h
  rw [h]
  rfl

/-- C6 witness: the derivation evaluated on the self-closing root
document. -/
theorem c6_files_derivation_witness :
    (reportOf (srcfactsRun [selfCloseDoc] 200)).map Report.files =
      some (max (({ Counters.init with unitCount := 1 } : Counters).unitCount - 1) 1) :=
  c6_files_derivation.1 [selfCloseDoc] 200 { Counters.init with unitCount := 1 } 7 (by decide)

/-- C7: the input consisting of one self-closing root element parses
successfully with unit count 1, every other counter 0, a files statistic
of 1, and the main element loop leaves at its first iteration, at the
self-closing close, with the whole window consumed and nothing further
taken from the byte source. -/
theorem c7_self_closing_root :
    srcfactsRun [selfCloseDoc] 200 = .ok ({ Counters.init with unitCount := 1 }, 7)
    ∧ reportOf (srcfactsRun [selfCloseDoc] 200) =
        some { url := [], textSize := 0, loc := 0, files := 1, classCount := 0,
               functionCount := 0, declCount := 0, exprCount := 0, commentCount := 0 }
    ∧ preamble [selfCloseDoc] =
        .ok { content := selfCloseDoc, chunks := [], doneReading := false,
              totalBytes := 7, counters := Counters.init, depth := 0 }
    ∧ iterate 1 { content := selfCloseDoc, chunks := [], doneReading := false,
                  totalBytes := 7, counters := Counters.init, depth := 0 } =
        .ok (.exitLoop { content := [], chunks := [], doneReading := true, totalBytes := 7,
                         counters := { Counters.init with unitCount := 1 }, depth := 0 }) := by
  decide

/-- C1 counterexample: the comment-bearing document parses successfully as
one contiguous block but aborts with Unterminated-XML-comment when the
same bytes are delivered in refill chunks of 7: the comment spans more
than one refill, exhausting the single retry of the comment branch. -/
theorem c1_boundary_counterexample :
    srcfactsRun [commentStraddleDoc] 200 = .ok (Counters.init, 41)
    ∧ srcfactsRun (chunkBytes 7 commentStraddleDoc) 200 = .fatal .unterminatedComment
    ∧ srcfactsRun (chunkBytes 7 commentStraddleDoc) 200 ≠ srcfactsRun [commentStraddleDoc] 200 := by
  decide

/-- C1 (amended): boundary independence holds when every
comment/CDATA/processing-instruction token is found within the retry
policy and the fixed-width lookaheads stay inside the delivered window:
a text run straddling refill boundaries at chunk size 7 (and at 4096)
yields counters identical to the contiguous parse.  It fails in general:
besides the comment counterexample, chunk size 2 already drives a
fixed-width lookahead beyond the delivered window (an out-of-bounds read
in the C++, `stuck` here). -/
theorem c1_boundary_amended :
    srcfactsRun (chunkBytes 7 textStraddleDoc) 200 = srcfactsRun [textStraddleDoc] 200
    ∧ srcfactsRun (chunkBytes 4096 textStraddleDoc) 200 = srcfactsRun [textStraddleDoc] 200
    ∧ srcfactsRun [textStraddleDoc] 200 =
        .ok ({ Counters.init with textSize := 11, loc := 1 }, 18)
    ∧ srcfactsRun (chunkBytes 2 textStraddleDoc) 200 = .stuck := by
  decide

/-- C9: a fatal diagnostic always means exit status 1 and no report, a
successful run always means exit status 0 and the report of its final
counters, and the four malformed inputs of the claim (unterminated
comment, attribute missing its delimiter, end tag with empty name, empty
input) are all fatal. -/
theorem c9_errors_no_report :
    (∀ chunks fuel e, srcfactsRun chunks fuel = .fatal e →
      exitStatus (srcfactsRun chunks fuel) = some 1
      ∧ reportOf (srcfactsRun chunks fuel) = none)
    ∧ (∀ chunks fuel c tb, srcfactsRun chunks fuel = .ok (c, tb) →
      exitStatus (srcfactsRun chunks fuel) = some 0
      ∧ reportOf (srcfactsRun chunks fuel) = some (mkReport c))
    ∧ srcfactsRun [untermCommentDoc] 200 = .fatal .unterminatedComment
    ∧ srcfactsRun [noDelimDoc] 200 = .fatal .attrMissingDelimiter
    ∧ srcfactsRun [emptyEndTagDoc] 200 = .fatal .endTagInvalidName
    ∧ srcfactsRun [] 200 = .fatal .emptyFile := by
  refine ⟨?_, ?_, by decide, by decide, by decide, by decide⟩
  · intro chunks fuel e h
    rw [h]
    exact ⟨rfl, rfl⟩
  · intro chunks fuel c tb h
    rw [h]
    exact ⟨rfl, rfl⟩

/-- C9 witness: the error side evaluated on the unterminated-comment
document. -/
theorem c9_errors_no_report_witness :
    exitStatus (srcfactsRun [untermCommentDoc] 200) = some 1
    ∧ reportOf (srcfactsRun [untermCommentDoc] 200) = none :=
  c9_errors_no_report.1 [untermCommentDoc] 200 .unterminatedComment (by decide)

/-- C3 counterexample: a refill called with an unconsumed prefix of
`BUFFER_SIZE - 5` bytes (as the comment/CDATA retry can do) appends up to
`BUFFER_SIZE - BLOCK_SIZE` further bytes, driving the total occupancy
beyond the fixed capacity `BUFFER_SIZE` — in the C++ this read overflows
the static buffer. -/
theorem c3_refill_counterexample :
    BUFFER_SIZE < (refillContent (List.replicate (BUFFER_SIZE - 5) 'a')
      [List.replicate (BUFFER_SIZE - BLOCK_SIZE) 'b']).content.length := by
  simp only [refillContent, List.length_append, List.length_take, List.length_replicate,
    List.length_nil]
  rw [Nat.min_self]
  norm_num [BUFFER_SIZE, BLOCK_SIZE]

/-- C3 (amended): every refill preserves the unconsumed window at the
start of the new one, appends a non-negative number of at most
`BUFFER_SIZE - BLOCK_SIZE` new bytes, and the occupancy after the call is
bounded by the prefix length plus that amount; occupancy stays within
`BUFFER_SIZE` provided the unconsumed prefix at call time is at most
`BLOCK_SIZE` (which holds for the top-of-loop refills, triggered only
below that threshold, but not for the comment/CDATA retry refills). -/
theorem c3_refill_amended :
    (∀ content chunks,
      ((refillContent content chunks).content.take content.length = content)
      ∧ 0 ≤ (refillContent content chunks).bytesRead
      ∧ (refillContent content chunks).bytesRead ≤ ((BUFFER_SIZE - BLOCK_SIZE : Nat) : Int)
      ∧ (refillContent content chunks).content.length
          ≤ content.length + (BUFFER_SIZE - BLOCK_SIZE))
    ∧ (∀ content chunks, content.length ≤ BLOCK_SIZE →
        (refillContent content chunks).content.length ≤ BUFFER_SIZE) := by
  have key : ∀ (content : List Char) (chunks : List (List Char)),
      ((refillContent content chunks).content.take content.length = content)
      ∧ 0 ≤ (refillContent content chunks).bytesRead
      ∧ (refillContent content chunks).bytesRead ≤ ((BUFFER_SIZE - BLOCK_SIZE : Nat) : Int)
      ∧ (refillContent content chunks).content.length
          ≤ content.length + (BUFFER_SIZE - BLOCK_SIZE) := by
    intro content chunks
    match chunks with
    | [] =>
      simp only [refillContent]
      refine ⟨List.take_length content, le_refl _, by positivity, by omega⟩
    | c :: rest =>
      simp only [refillContent, List.length_append, List.length_take]
      refine ⟨List.take_left content _, by positivity, ?_, by omega⟩
      exact_mod_cast Nat.le_of_lt_succ (Nat.lt_succ_of_le (by
        exact Nat.min_le_left (BUFFER_SIZE - BLOCK_SIZE) c.length))
  refine ⟨key, ?_⟩
  intro content chunks h
  have h2 := (key content chunks).2.2.2
  have hb : BLOCK_SIZE + (BUFFER_SIZE - BLOCK_SIZE) = BUFFER_SIZE := by
    norm_num [BLOCK_SIZE, BUFFER_SIZE]
  omega

/-- C3 witness: the amended bounds evaluated on a two-byte prefix and a
two-byte chunk. -/
theorem c3_refill_amended_witness :
    ((refillContent (("ab").toList) [("cd").toList]).content.take (("ab").toList).length
        = ("ab").toList)
    ∧ (refillContent (("ab").toList) [("cd").toList]).content.length ≤ BUFFER_SIZE :=
  ⟨(c3_refill_amended.1 (("ab").toList) [("cd").toList]).1,
   c3_refill_amended.2 (("ab").toList) [("cd").toList] (by decide)⟩

/-- The counter bump of a start tag never touches the LOC counter. -/
theorem bumpElement_loc (n : List Char) (c : Counters) : (bumpElement n c).loc = c.loc := by
  unfold bumpElement
  repeat' split
  all_goals rfl

/-- The counter bump of a start tag never touches the text-size counter. -/
theorem bumpElement_textSize (n : List Char) (c : Counters) :
    (bumpElement n c).textSize = c.textSize := by
  unfold bumpElement
  repeat' split
  all_goals rfl

/-- A successful start-tag close carries exactly the supplied counters,
leaves the byte source alone, and changes the depth by plus one (plain
close) or not at all (self-closing close or fall-through). -/
theorem closeStartTag_ok (s : PState) (content : List Char) (c : Counters) (out : StepOut)
    (h : closeStartTag s content c = .ok out) :
    (stateOf out).counters = c
    ∧ (stateOf out).chunks = s.chunks ∧ (stateOf out).doneReading = s.doneReading
    ∧ (stateOf out).totalBytes = s.totalBytes
    ∧ ((stateOf out).depth = s.depth + 1 ∨ (stateOf out).depth = s.depth) := by
  unfold closeStartTag at h
  repeat' split at h
  all_goals cases h
  all_goals simp_all [stateOf]

/-- Every successful end-tag parse leaves all metric counters unchanged,
decrements the depth by exactly one whatever the tag's qualified name,
leaves the byte source alone, and leaves the loop exactly when the
decrement lands on depth 0. -/
theorem parseEndTag_ok (s : PState) (out : StepOut) (h : parseEndTag s = .ok out) :
    (stateOf out).counters = s.counters ∧ (stateOf out).depth = s.depth - 1
    ∧ (stateOf out).chunks = s.chunks ∧ (stateOf out).doneReading = s.doneReading
    ∧ (stateOf out).totalBytes = s.totalBytes
    ∧ ((∃ s1, out = .exitLoop s1) ↔ s.depth - 1 = 0) := by
  unfold parseEndTag at h
  simp only [bind, Res.bind] at h
  repeat' split at h
  all_goals (beta_reduce at h)
  repeat' split at h
  all_goals cases h
  all_goals simp_all [stateOf]

/-- Every successful start-tag parse leaves the LOC and text-size counters
unchanged (newlines inside tags and attribute values are never counted),
leaves the byte source alone, and increments the depth by one or leaves
it unchanged. -/
theorem parseStartTag_ok (s : PState) (out : StepOut) (h : parseStartTag s = .ok out) :
    (stateOf out).counters.loc = s.counters.loc
    ∧ (stateOf out).counters.textSize = s.counters.textSize
    ∧ (stateOf out).chunks = s.chunks ∧ (stateOf out).doneReading = s.doneReading
    ∧ (stateOf out).totalBytes = s.totalBytes
    ∧ ((stateOf out).depth = s.depth + 1 ∨ (stateOf out).depth = s.depth) := by
  unfold parseStartTag at h
  simp only [bind, Res.bind] at h
  repeat' split at h
  all_goals (beta_reduce at h)
  repeat' split at h
  all_goals (beta_reduce at h)
  repeat' split at h
  all_goals (first
    | exact (Res.noConfusion h)
    | (rcases closeStartTag_ok _ _ _ _ h with ⟨h1, h2, h3, h4, h5⟩
       refine ⟨?_, ?_, h2, h3, h4, h5⟩
       · rw [h1]; simp [bumpElement_loc]
       · rw [h1]; simp [bumpElement_textSize]))

/-- A find over a name of non-delimiter characters followed by a delimiter
locates the delimiter. -/
theorem findFirstOf_append_nonmem (name rest : List Char) (set : List Char) (d : Char)
    (hn : ∀ c ∈ name, set.contains c = false) (hd : set.contains d = true) :
    findFirstOf (name ++ d :: rest) set = some name.length := by
  induction name with
  | nil =>
      simp [findFirstOf, hd]
      exact List.mem_of_elem_eq_true hd
  | cons a as ih =>
      have ha : set.contains a = false := hn a (by simp)
      have ih2 := ih (fun c hc => hn c (by simp [hc]))
      simp [findFirstOf, ha, ih2]
      intro hmem
      have : set.contains a = true := List.elem_eq_true_of_mem hmem
      rw [this] at ha
      exact Bool.noConfusion ha

theorem getD_append_self (l1 l2 : List Char) (d x : Char) :
    (l1 ++ d :: l2).getD l1.length x = d := by
  induction l1 with
  | nil => simp
  | cons a as ih => simpa using ih

theorem take_append_self (l1 l2 : List Char) (d : Char) :
    (l1 ++ d :: l2).take l1.length = l1 := List.take_left l1 (d :: l2)

theorem drop_append_self (l1 l2 : List Char) (d : Char) :
    (l1 ++ d :: l2).drop l1.length = d :: l2 := List.drop_left l1 (d :: l2)

theorem parseEndTag_shape (s : PState) (name rest : List Char)
    (hc : s.content = '<' :: '/' :: (name ++ '>' :: rest))
    (hne : name ≠ [])
    (hn : ∀ c ∈ name, NAMEEND.contains c = false) :
    parseEndTag s = .ok (
      if s.depth - 1 == 0
      then .exitLoop { s with content := rest, depth := s.depth - 1 }
      else .next { s with content := rest, depth := s.depth - 1 }) := by
  obtain ⟨cn, ch, dr, tb, ct, dp⟩ := s
  simp only at hc
  subst hc
  match name, hne with
  | n :: ns, _ =>
    have hcolon : (n == ':') = false := by
      rcases hb : n == ':' with _ | _
      · rfl
      · have : n = ':' := by exact eq_of_beq hb
        subst this
        have := hn ':' (by simp)
        exact absurd this (by decide)
    have hfind := findFirstOf_append_nonmem (n :: ns) rest NAMEEND '>' hn (by decide)
    have hget := getD_append_self (n :: ns) rest '>' '\x00'
    have htake := take_append_self (n :: ns) rest '>'
    have hdrop := drop_append_self (n :: ns) rest '>'
    simp only [List.cons_append] at hfind hget htake hdrop
    have hcw : WHITESPACE.contains '>' = false := by decide
    have hgt : (('>' : Char) == ':') = false := by decide
    simp only [parseEndTag, bind, Res.bind, List.drop_succ_cons, List.drop_zero,
      List.cons_append, List.headD_cons, hcolon, Bool.false_eq_true, if_false,
      hfind, hget, hgt, htake, hdrop, List.isEmpty_cons, wsRes, skipWs,
      findFirstNotOf, hcw, Option.map_some', List.drop_one, List.tail_cons]
    split <;> rfl

/-- C4 counterexample: on the input consisting of a lone end tag the first
iteration of the main element loop drives the depth to minus one — the
depth does become negative, and the loop continues rather than stopping. -/
theorem c4_depth_counterexample :
    preamble [endTagOnlyDoc] =
      .ok { content := endTagOnlyDoc, chunks := [], doneReading := false,
            totalBytes := 7, counters := Counters.init, depth := 0 }
    ∧ iterate 1 { content := endTagOnlyDoc, chunks := [], doneReading := false,
                  totalBytes := 7, counters := Counters.init, depth := 0 } =
        .ok (.next { content := [], chunks := [], doneReading := true,
                     totalBytes := 7, counters := Counters.init, depth := -1 })
    ∧ (-1 : Int) < 0 := by decide

/-- C4 (amended): the depth is incremented on a plain start-tag close and
unchanged on a self-closing one, decremented by every successful end tag,
and the loop leaves exactly when a decrement lands on zero — but the
depth is not kept non-negative: an end tag at depth 0 yields depth minus
one, the loop continues, and the lone-end-tag document is even accepted
with all counters zero. -/
theorem c4_depth_amended :
    (∀ s out, parseEndTag s = .ok out → (stateOf out).depth = s.depth - 1)
    ∧ (∀ s out, parseEndTag s = .ok out → ((∃ s1, out = .exitLoop s1) ↔ s.depth - 1 = 0))
    ∧ (∀ s out, parseStartTag s = .ok out →
        (stateOf out).depth = s.depth + 1 ∨ (stateOf out).depth = s.depth)
    ∧ srcfactsRun [endTagOnlyDoc] 200 = .ok (Counters.init, 7) :=
  ⟨fun s out h => (parseEndTag_ok s out h).2.1,
   fun s out h => (parseEndTag_ok s out h).2.2.2.2.2,
   fun s out h => (parseStartTag_ok s out h).2.2.2.2.2,
   by decide⟩

/-- C4 witness: the end-tag decrement evaluated on a concrete state. -/
theorem c4_depth_amended_witness :
    (stateOf (.next { content := ['x'], chunks := [], doneReading := true, totalBytes := 0,
                      counters := Counters.init, depth := -1 })).depth =
      ({ content := ("</a>x").toList, chunks := [], doneReading := true, totalBytes := 0,
         counters := Counters.init, depth := 0 } : PState).depth - 1 :=
  c4_depth_amended.1
    { content := ("</a>x").toList, chunks := [], doneReading := true, totalBytes := 0,
      counters := Counters.init, depth := 0 }
    (.next { content := ['x'], chunks := [], doneReading := true, totalBytes := 0,
             counters := Counters.init, depth := -1 })
    (by decide)

/-- C10: an end tag is never matched against the element it closes: any
well-shaped end tag parses to a depth decrement with all counters
unchanged, its result depending on the name only through well-shapedness,
and the document closing a unit element with an alien tag produces the
same report as the properly matched one. -/
theorem c10_end_tag_name_ignored :
    (∀ s name rest, s.content = '<' :: '/' :: (name ++ '>' :: rest) → name ≠ [] →
      (∀ c ∈ name, NAMEEND.contains c = false) →
      parseEndTag s = .ok (
        if s.depth - 1 == 0
        then .exitLoop { s with content := rest, depth := s.depth - 1 }
        else .next { s with content := rest, depth := s.depth - 1 }))
    ∧ (∀ s out, parseEndTag s = .ok out →
        (stateOf out).counters = s.counters ∧ (stateOf out).depth = s.depth - 1)
    ∧ reportOf (srcfactsRun [mismatchDoc] 200) = reportOf (srcfactsRun [matchedDoc] 200)
    ∧ reportOf (srcfactsRun [mismatchDoc] 200) =
        some { url := [], textSize := 0, loc := 0, files := 1, classCount := 0,
               functionCount := 0, declCount := 0, exprCount := 0, commentCount := 0 } :=
  ⟨parseEndTag_shape,
   fun s out h => ⟨(parseEndTag_ok s out h).1, (parseEndTag_ok s out h).2.1⟩,
   by decide, by decide⟩

/-- C10 witness: the shape characterisation evaluated on an end tag whose
name matches nothing. -/
theorem c10_end_tag_name_ignored_witness :
    parseEndTag { content := ("</foo>").toList, chunks := [], doneReading := true,
                  totalBytes := 0, counters := Counters.init, depth := 1 } =
      .ok (if (1 : Int) - 1 == 0
           then .exitLoop { content := [], chunks := [], doneReading := true, totalBytes := 0,
                            counters := Counters.init, depth := (1 : Int) - 1 }
           else .next { content := [], chunks := [], doneReading := true, totalBytes := 0,
                        counters := Counters.init, depth := (1 : Int) - 1 }) :=
  c10_end_tag_name_ignored.1
    { content := ("</foo>").toList, chunks := [], doneReading := true,
      totalBytes := 0, counters := Counters.init, depth := 1 }
    (("foo").toList) [] (by decide) (by decide) (by decide)

/-- The processing-instruction branch is fatal whenever its terminator is
absent from the current window, whatever the byte source still holds: the
branch never refills. -/
theorem dispatch_pi_noTerminator (s : PState) (rest2 : List Char)
    (hc : s.content = '<' :: '?' :: rest2)
    (hf : findSub rest2 (("?>").toList) = none) :
    dispatch s = .fatal .incompleteXMLDeclaration := by
  obtain ⟨cn, ch, dr, tb, ct, dp⟩ := s
  simp only at hc
  subst hc
  rw [show ("?>").toList = ['?', '>'] from rfl] at hf
  simp [dispatch, hf]

/-- A window holding a processing instruction whose terminator is still in
the byte source, not yet in the window. -/
def piMissingState : PState :=
  { content := ("<?target data").toList, chunks := [("?>").toList],
    doneReading := false, totalBytes := 0, counters := Counters.init, depth := 1 }

/-- A window holding a comment whose terminator is still in the byte
source, not yet in the window. -/
def commentMissingState : PState :=
  { content := ("<!-- data").toList, chunks := [("-->").toList],
    doneReading := false, totalBytes := 0, counters := Counters.init, depth := 1 }

/-- C8: a processing instruction whose terminator is not in the current
window is immediately fatal — no refill is attempted, for any state of
the byte source — and on the concrete straddling states the asymmetry
with comments is visible: the processing instruction aborts even though
its terminator is available from the byte source, while a comment in the
same situation refills once (total bytes grow by the appended chunk) and
succeeds. -/
theorem c8_pi_terminator_in_window :
    (∀ s rest2, s.content = '<' :: '?' :: rest2 →
      findSub rest2 (("?>").toList) = none →
      dispatch s = .fatal .incompleteXMLDeclaration)
    ∧ dispatch piMissingState = .fatal .incompleteXMLDeclaration
    ∧ dispatch commentMissingState =
        .ok (.next { content := [], chunks := [], doneReading := false, totalBytes := 3,
                     counters := Counters.init, depth := 1 }) :=
  ⟨dispatch_pi_noTerminator, by decide, by decide⟩

/-- C8 witness: the no-refill fatality evaluated on the concrete
straddling processing instruction. -/
theorem c8_pi_terminator_in_window_witness :
    dispatch piMissingState = .fatal .incompleteXMLDeclaration :=
  c8_pi_terminator_in_window.1 piMissingState (("target data").toList) (by decide) (by decide)

/-- The text-run branch consumes the run up to the next left angle or
ampersand and counts its length and its newlines. -/
theorem dispatch_textRun (s : PState) (c : Char) (rest : List Char)
    (hc : s.content = c :: rest) (h1 : c ≠ '<') (h2 : c ≠ '&') :
    dispatch s = .ok (.next { s with
      content := s.content.drop (textRun s.content).length,
      counters := { s.counters with
        loc := s.counters.loc + (countNewlines (textRun s.content) : Int),
        textSize := s.counters.textSize + ((textRun s.content).length : Int) } }) := by
  obtain ⟨cn, ch, dr, tb, ct, dp⟩ := s
  simp only at hc
  subst hc
  have b1 : (c == '&') = false := by simp [h2]
  have b2 : (c != '<') = true := by simp [h1]
  simp [dispatch, b1, b2]

theorem dispatch_comment_found (s : PState) (body : List Char) (i : Nat)
    (hc : s.content = '<' :: '!' :: '-' :: '-' :: body)
    (hf : findSub body (("-->").toList) = some i) :
    dispatch s = .ok (.next { s with content := (body.drop i).drop 3 }) := by
  obtain ⟨cn, ch, dr, tb, ct, dp⟩ := s
  simp only at hc
  subst hc
  rw [show ("-->").toList = ['-', '-', '>'] from rfl] at hf
  simp [dispatch, hf]

theorem dispatch_cdata_found (s : PState) (body : List Char) (i : Nat)
    (hc : s.content = '<' :: '!' :: '[' :: 'C' :: 'D' :: 'A' :: 'T' :: 'A' :: '[' :: body)
    (hf : findSub body (("]]>").toList) = some i) :
    dispatch s = .ok (.next { s with
      content := (body.drop i).drop 3,
      counters := { s.counters with
        textSize := s.counters.textSize + ((body.take i).length : Int),
        loc := s.counters.loc + (countNewlines (body.take i) : Int) } }) := by
  obtain ⟨cn, ch, dr, tb, ct, dp⟩ := s
  simp only at hc
  subst hc
  rw [show ("]]>").toList = [']', ']', '>'] from rfl] at hf
  simp [dispatch, hf]

theorem dispatch_entity (s : PState) (rest : List Char) (hc : s.content = '&' :: rest) :
    ∃ n, dispatch s = .ok (.next { s with
      content := s.content.drop n,
      counters := { s.counters with textSize := s.counters.textSize + 1 } }) := by
  obtain ⟨cn, ch, dr, tb, ct, dp⟩ := s
  simp only at hc
  subst hc
  refine ⟨if startsWithL rest (("lt;").toList) then 4
          else if startsWithL rest (("gt;").toList) then 4
          else if startsWithL rest (("amp;").toList) then 5 else 1, ?_⟩
  simp [dispatch]

theorem dispatch_pi_found (s : PState) (rest2 : List Char) (i j : Nat)
    (hc : s.content = '<' :: '?' :: rest2)
    (hf : findSub rest2 (("?>").toList) = some i)
    (hn : findFirstOf rest2 NAMEEND = some j) :
    dispatch s = .ok (.next { s with content := (rest2.drop i).drop 2 }) := by
  obtain ⟨cn, ch, dr, tb, ct, dp⟩ := s
  simp only at hc
  subst hc
  rw [show ("?>").toList = ['?', '>'] from rfl] at hf
  simp [dispatch, hf, hn]

/-- C5: the LOC counter moves only in the text-run and CDATA branches, by
exactly the newline count of the consumed characters; comments, entities,
processing instructions, end tags and whole start tags (including their
attribute values) leave it unchanged; and the two literal documents — a
three-line text and an attribute value containing a newline — contribute
2 and 0 respectively. -/
theorem c5_loc_counts_text_newlines :
    (∀ s c rest, s.content = c :: rest → c ≠ '<' → c ≠ '&' →
      dispatch s = .ok (.next { s with
        content := s.content.drop (textRun s.content).length,
        counters := { s.counters with
          loc := s.counters.loc + (countNewlines (textRun s.content) : Int),
          textSize := s.counters.textSize + ((textRun s.content).length : Int) } }))
    ∧ (∀ s body i, s.content = '<' :: '!' :: '[' :: 'C' :: 'D' :: 'A' :: 'T' :: 'A' :: '[' :: body →
        findSub body (("]]>").toList) = some i →
        dispatch s = .ok (.next { s with
          content := (body.drop i).drop 3,
          counters := { s.counters with
            textSize := s.counters.textSize + ((body.take i).length : Int),
            loc := s.counters.loc + (countNewlines (body.take i) : Int) } }))
    ∧ (∀ s body i, s.content = '<' :: '!' :: '-' :: '-' :: body →
        findSub body (("-->").toList) = some i →
        dispatch s = .ok (.next { s with content := (body.drop i).drop 3 }))
    ∧ (∀ s rest, s.content = '&' :: rest →
        ∃ n, dispatch s = .ok (.next { s with
          content := s.content.drop n,
          counters := { s.counters with textSize := s.counters.textSize + 1 } }))
    ∧ (∀ s rest2 i j, s.content = '<' :: '?' :: rest2 →
        findSub rest2 (("?>").toList) = some i → findFirstOf rest2 NAMEEND = some j →
        dispatch s = .ok (.next { s with content := (rest2.drop i).drop 2 }))
    ∧ (∀ s out, parseEndTag s = .ok out → (stateOf out).counters.loc = s.counters.loc)
    ∧ (∀ s out, parseStartTag s = .ok out → (stateOf out).counters.loc = s.counters.loc)
    ∧ srcfactsRun [textNlDoc] 200 =
        .ok ({ Counters.init with textSize := 5, loc := 2, unitCount := 1 }, 18)
    ∧ srcfactsRun [attrNlDoc] 200 =
        .ok ({ Counters.init with
                 textSize := 1, loc := 0, unitCount := 1, url := ['a', '\n', 'b'] }, 24) :=
  ⟨dispatch_textRun, dispatch_cdata_found, dispatch_comment_found, dispatch_entity,
   dispatch_pi_found,
   fun s out h => by rw [(parseEndTag_ok s out h).1],
   fun s out h => (parseStartTag_ok s out h).1,
   by decide, by decide⟩

/-- C5 witness: the text-run conjunct evaluated on a concrete two-line
window. -/
theorem c5_loc_counts_text_newlines_witness :
    dispatch { content := ("a\nb<x/>").toList, chunks := [], doneReading := true,
               totalBytes := 7, counters := Counters.init, depth := 1 } =
      .ok (.next { content :=
                     (("a\nb<x/>").toList).drop (textRun (("a\nb<x/>").toList)).length,
                   chunks := [], doneReading := true, totalBytes := 7,
                   counters := { Counters.init with
                                   loc := Counters.init.loc
                                     + (countNewlines (textRun (("a\nb<x/>").toList)) : Int),
                                   textSize := Counters.init.textSize
                                     + ((textRun (("a\nb<x/>").toList)).length : Int) },
                   depth := 1 }) :=
  c5_loc_counts_text_newlines.1
    { content := ("a\nb<x/>").toList, chunks := [], doneReading := true,
      totalBytes := 7, counters := Counters.init, depth := 1 }
    'a' (("\nb<x/>").toList) (by decide) (by decide) (by decide)
